import Mathlib

/-!
Shallow embedding of `src/func_adl_servicex/ServiceX.py`
(class `ServiceXDatasetSourceBase`): the query translation and
dispatch engine of `func_adl_servicex`.

Python `ast` nodes become a small inductive `Expr` of the node shapes the
code actually touches; the query handed to the dispatcher is an `ast.Call`
whose `func` is an `ast.Name`, embedded as `CallExpr`.  Exceptions become
an explicit `PyError` sum carried through `Except`.  The external ServiceX
dataset collaborator (the `servicex` package, out of scope per the spec) is
embedded as a `Backend` record of its supported transfer formats plus a
description string; its `first_supported_datatype` query and the remote
operations are modelled from the spec's description of the collaborator
(spec section 6).  The qastle serializer `python_ast_to_text_ast` is an
external pure function and is passed in as a parameter `serialize`.
-/

/-- Python `ast` subtrees as used by `ServiceX.py`: `ast.Name`, `ast.Str`,
and `ast.Call` (whose `func` is always an `ast.Name` in this code, so we
keep just its `id`).  Upstream query nodes are arbitrary such trees. -/
inductive Expr where
  | name (id : String)
  | str (s : String)
  | call (funcId : String) (args : List Expr)

/-- The top-level query handed to the dispatcher: an `ast.Call` whose
`func` is an `ast.Name` (the code reads `cast(ast.Name, a.func).id`).
`funcId` is that name; `args` the argument list of the terminal node. -/
structure CallExpr where
  funcId : String
  args : List Expr

/-- The ServiceX dataset collaborator `self._ds`: the list of remote-native
transfer formats it supports, and its description rendered by `str(...)`. -/
structure Backend where
  formats : List String
  descr : String
deriving DecidableEq, Repr

/-- The failure modes of the embedded code: `FuncADLServerException`
(raised explicitly by the code), Python `AssertionError` (from `assert`
statements), and `KeyError` (from dict indexing on a missing key). -/
inductive PyError where
  | funcADLServerException (msg : String)
  | assertionError (msg : String)
  | keyError (key : String)
deriving DecidableEq, Repr

/-- Python dict lookup `d[k]` over a literal dict, as an association list:
`none` models a `KeyError`. -/
def lookupDict : List (String × String) → String → Option String
  | [], _ => none
  | (k, v) :: rest, key => if key = k then some v else lookupDict rest key

/-- `ServiceXDatasetSourceBase._ds_map` (ServiceX.py lines 29-34): how we
map from func_adl to a servicex query. -/
def ds_map : List (String × String) :=
  [("ResultTTree", "get_data_rootfiles_async"),
   ("ResultParquet", "get_data_parquet_async"),
   ("ResultPandasDF", "get_data_pandas_df_async"),
   ("ResultAwkwardArray", "get_data_awkward_async")]

/-- `ServiceXDatasetSourceBase._format_map` (lines 37-40): if it comes
down to format, what are we going to grab? -/
def format_map : List (String × String) :=
  [("root", "get_data_rootfiles_async"),
   ("parquet", "get_data_parquet_async")]

/-- `ServiceXDatasetSourceBase._execute_locally` (line 43): methods that
are translated locally. -/
def execute_locally : List String :=
  ["ResultPandasDF", "ResultAwkwardArray"]

/-- `ServiceXDatasetSourceBase._format_list` (line 47): formats in
prioritized order. -/
def format_list : List String :=
  ["parquet", "root"]

/-- Modelled from the spec: the external collaborator's
`first_supported_datatype` query (the `servicex` package is outside this
repository).  Spec section 6: the remote connection handle exposes "a query
of which remote-native transfer formats it supports, optionally
filtered/prioritized by a candidate list, returning the best supported one
or an absence signal".  We return the first candidate the backend supports.
The code's single-string call `first_supported_datatype('root')` is
embedded as the singleton candidate list `["root"]`. -/
def first_supported_datatype (b : Backend) : List String → Option String
  | [] => none
  | f :: rest => if b.formats.contains f then some f else first_supported_datatype b rest

/-- `ServiceXDatasetSourceBase.check_data_format_request` (lines 77-91):
raise a `FuncADLServerException` when `ResultTTree` is requested but the
backend supports no `root`, or `ResultParquet` is requested but the backend
supports no `parquet`; otherwise return silently. -/
def check_data_format_request (b : Backend) (f_name : String) : Except PyError Unit :=
  if (f_name = "ResultTTree" ∧ first_supported_datatype b ["root"] = none)
      ∨ (f_name = "ResultParquet" ∧ first_supported_datatype b ["parquet"] = none) then
    .error (.funcADLServerException (f_name ++ " is not supported by " ++ b.descr))
  else
    .ok ()

/-- The rewriting step of `ServiceXDatasetSourceBase.generate_qastle`
(lines 106-128): compute the `source` expression that is then serialized.
If the top-level function is translated locally, pick the default format
via `first_supported_datatype(['parquet', 'root'])` (the bare `assert`
becomes an `assertionError`), look up the method in `_format_map` (dict
indexing; a missing key would be a `keyError`), check the two-argument
arity, and build a fresh `ResultTTree` or `ResultParquet` call reusing the
first two arguments; otherwise return the expression unchanged. -/
def rewrite_source (b : Backend) (a : CallExpr) : Except PyError CallExpr :=
  if execute_locally.contains a.funcId then
    match first_supported_datatype b ["parquet", "root"] with
    | none => .error (.assertionError "Unsupported ServiceX returned format")
    | some default_format =>
      match lookupDict format_map default_format with
      | none => .error (.keyError default_format)
      | some method_to_call =>
        match a.args with
        | [stream, col_names] =>
          if method_to_call = "get_data_rootfiles_async" then
            .ok ⟨"ResultTTree", [stream, col_names, .str "treeme", .str "junk.root"]⟩
          else if method_to_call = "get_data_parquet_async" then
            .ok ⟨"ResultParquet", [stream, col_names, .str "junk.parquet"]⟩
          else
            .error (.assertionError ("Do not know how to call " ++ method_to_call))
        | _ =>
          .error (.funcADLServerException
            ("Do not understand how to call " ++ a.funcId ++ " - wrong number of arguments"))
  else
    .ok a

/-- `ServiceXDatasetSourceBase.generate_qastle` (lines 93-129): rewrite the
source when needed, then serialize it with the external qastle function
`python_ast_to_text_ast`, passed in as the pure parameter `serialize`. -/
def generate_qastle (serialize : CallExpr → String) (b : Backend) (a : CallExpr) :
    Except PyError String :=
  (rewrite_source b a).map serialize

/-- What `execute_result_async` hands back to its caller on success:
either the qastle wire text (when `return_qastle` is set) or the data
returned by the remote operation. -/
inductive ExecResult (Data : Type) where
  | wireText (s : String)
  | remoteData (d : Data)

/-- `ServiceXDatasetSourceBase.execute_result_async` (lines 131-165):
check the data format request, generate the qastle string, return it if
`return_qastle` is set, otherwise look the original function name up in
`_ds_map` (raising the internal error when absent) and run the remote
operation on the qastle string and title.  The backend's remote operations
(awaited black boxes from the `servicex` collaborator) are embedded as the
parameter `run`, taking the operation name, the qastle string and the
optional title. -/
def execute_result_async {Data : Type} (serialize : CallExpr → String) (b : Backend)
    (run : String → String → Option String → Data) (return_qastle : Bool)
    (a : CallExpr) (title : Option String) : Except PyError (ExecResult Data) := do
  check_data_format_request b a.funcId
  let q_str ← generate_qastle serialize b a
  if return_qastle then
    return .wireText q_str
  else
    match lookupDict ds_map a.funcId with
    | none =>
      .error (.funcADLServerException
        ("Internal error - asked for " ++ a.funcId
          ++ " - but this dataset does not support it."))
    | some name => return .remoteData (run name q_str title)

/-- Whether a computation failed with a `FuncADLServerException` (as
opposed to an `AssertionError`, a `KeyError`, or success). -/
def is_funcadl_error {α : Type} : Except PyError α → Bool
  | .error (.funcADLServerException _) => true
  | _ => false

-- Sanity checks of the embedding on concrete inputs.
example : rewrite_source ⟨["parquet", "root"], "d"⟩ ⟨"ResultPandasDF", [.name "s", .name "c"]⟩
    = .ok ⟨"ResultParquet", [.name "s", .name "c", .str "junk.parquet"]⟩ := rfl

example : rewrite_source ⟨["root"], "d"⟩ ⟨"ResultAwkwardArray", [.name "s", .name "c"]⟩
    = .ok ⟨"ResultTTree", [.name "s", .name "c", .str "treeme", .str "junk.root"]⟩ := rfl

example : rewrite_source ⟨["root"], "d"⟩ ⟨"ResultTTree", [.name "s"]⟩
    = .ok ⟨"ResultTTree", [.name "s"]⟩ := rfl

example : check_data_format_request ⟨[], "the-backend"⟩ "ResultTTree"
    = .error (.funcADLServerException "ResultTTree is not supported by the-backend") := rfl

/-- Unfolding the two-candidate format query used by the rewriter. -/
theorem fsd_parquet_root (b : Backend) :
    first_supported_datatype b ["parquet", "root"]
      = if b.formats.contains "parquet" then some "parquet"
        else if b.formats.contains "root" then some "root" else none := rfl

/-- The rewriter on a local-materialized two-argument call, split by which
format the backend supports. -/
theorem rewrite_source_local_two_args (b : Backend) (f : String) (s c : Expr)
    (hl : f ∈ execute_locally) :
    rewrite_source b ⟨f, [s, c]⟩
      = if "parquet" ∈ b.formats then
          .ok ⟨"ResultParquet", [s, c, .str "junk.parquet"]⟩
        else if "root" ∈ b.formats then
          .ok ⟨"ResultTTree", [s, c, .str "treeme", .str "junk.root"]⟩
        else
          .error (.assertionError "Unsupported ServiceX returned format") := by
  by_cases hp : "parquet" ∈ b.formats
  · simp [rewrite_source, hl, fsd_parquet_root, hp, lookupDict, format_map]
  · by_cases hr : "root" ∈ b.formats
    · simp [rewrite_source, hl, fsd_parquet_root, hp, hr, lookupDict, format_map]
    · simp [rewrite_source, hl, fsd_parquet_root, hp, hr]

/-- The single-candidate format query fails exactly when the backend does
not list that format. -/
theorem fsd_single (b : Backend) (x : String) :
    first_supported_datatype b [x] = none ↔ x ∉ b.formats := by
  by_cases h : x ∈ b.formats <;> simp [first_supported_datatype, h]

/-- A query whose terminal node is not translated locally is left
unchanged by the rewriting step. -/
theorem rewrite_source_nonlocal (b : Backend) (a : CallExpr)
    (hl : a.funcId ∉ execute_locally) : rewrite_source b a = .ok a := by
  simp [rewrite_source, hl]

/-- Unfolding `execute_result_async` in dry-run mode: the remote operations
are never consulted and the (possibly rewritten) source is serialized. -/
theorem execute_dry_run_eq {Data : Type} (serialize : CallExpr → String) (b : Backend)
    (run : String → String → Option String → Data) (a : CallExpr) (title : Option String) :
    execute_result_async serialize b run true a title
      = (check_data_format_request b a.funcId).bind (fun _ =>
          (rewrite_source b a).map (fun a2 => .wireText (serialize a2))) := by
  cases hc : check_data_format_request b a.funcId <;>
    cases hq : rewrite_source b a <;>
      simp [execute_result_async, generate_qastle, hc, hq, Except.map,
        Except.bind, Bind.bind, Pure.pure, Except.pure]

/-! ## The claims -/

/-- C1, counterexample: the dispatch table `_ds_map` does have the two
local-materialized kinds among its keys, contrary to the claim that
neither is a key. -/
theorem ds_map_has_local_kind_keys :
    lookupDict ds_map "ResultPandasDF" = some "get_data_pandas_df_async"
    ∧ lookupDict ds_map "ResultAwkwardArray" = some "get_data_awkward_async" :=
  ⟨rfl, rfl⟩

/-- C1, amended: the dispatch table maps every ResultKind — the two
remote-native kinds and also the two local-materialized kinds — to the name
of a remote operation, and has no other keys. -/
theorem ds_map_maps_every_result_kind (k : String) :
    (lookupDict ds_map k ≠ none
      ↔ (k = "ResultTTree" ∨ k = "ResultParquet"
          ∨ k = "ResultPandasDF" ∨ k = "ResultAwkwardArray"))
    ∧ lookupDict ds_map "ResultTTree" = some "get_data_rootfiles_async"
    ∧ lookupDict ds_map "ResultParquet" = some "get_data_parquet_async"
    ∧ lookupDict ds_map "ResultPandasDF" = some "get_data_pandas_df_async"
    ∧ lookupDict ds_map "ResultAwkwardArray" = some "get_data_awkward_async" := by
  refine ⟨?_, rfl, rfl, rfl, rfl⟩
  by_cases h1 : k = "ResultTTree" <;> by_cases h2 : k = "ResultParquet" <;>
    by_cases h3 : k = "ResultPandasDF" <;> by_cases h4 : k = "ResultAwkwardArray" <;>
      simp [ds_map, lookupDict, h1, h2, h3, h4]

/-- C1 witness: the amended theorem applied at the key `ResultPandasDF`. -/
theorem ds_map_maps_every_result_kind_witness :
    lookupDict ds_map "ResultPandasDF" ≠ none :=
  (ds_map_maps_every_result_kind "ResultPandasDF").1.mpr
    (Or.inr (Or.inr (Or.inl rfl)))

/-- C2, counterexample: for a local-materialized kind against a backend
supporting neither `parquet` nor `root`, the rewriter fails with a Python
`AssertionError` (from the bare `assert` on line 111), not with the
`FuncADLServerException` that the capability check raises. -/
theorem rewrite_no_format_is_not_funcadl_error :
    rewrite_source ⟨[], "sx-backend"⟩ ⟨"ResultPandasDF", [.name "stream", .name "cols"]⟩
        = .error (.assertionError "Unsupported ServiceX returned format")
    ∧ is_funcadl_error (rewrite_source ⟨[], "sx-backend"⟩
        ⟨"ResultPandasDF", [.name "stream", .name "cols"]⟩) = false :=
  ⟨rfl, rfl⟩

/-- C2, amended: for every local-materialized kind, if the backend supports
neither remote-native format, the rewriter fails with the assertion failure
`Unsupported ServiceX returned format` — an `AssertionError`, a different
failure mode from the `FuncADLServerException` raised by the capability
check. -/
theorem rewrite_no_format_asserts (b : Backend) (a : CallExpr)
    (hl : a.funcId ∈ execute_locally)
    (hp : "parquet" ∉ b.formats) (hr : "root" ∉ b.formats) :
    rewrite_source b a = .error (.assertionError "Unsupported ServiceX returned format")
    ∧ is_funcadl_error (rewrite_source b a) = false := by
  have h : rewrite_source b a
      = .error (.assertionError "Unsupported ServiceX returned format") := by
    simp [rewrite_source, hl, fsd_parquet_root, hp, hr]
  exact ⟨h, by rw [h]; rfl⟩

/-- C2 witness: the amended theorem applied to a formatless backend and an
`ResultAwkwardArray` query. -/
theorem rewrite_no_format_asserts_witness :
    rewrite_source ⟨[], "bk"⟩ ⟨"ResultAwkwardArray", []⟩
        = .error (.assertionError "Unsupported ServiceX returned format")
    ∧ is_funcadl_error (rewrite_source ⟨[], "bk"⟩ ⟨"ResultAwkwardArray", []⟩) = false :=
  rewrite_no_format_asserts ⟨[], "bk"⟩ ⟨"ResultAwkwardArray", []⟩
    (by simp [execute_locally]) (by simp) (by simp)

/-- C3: when the terminal node of a local-materialized kind carries exactly
two arguments and the backend supports at least one remote-native format,
the rewritten terminal node keeps the original first two arguments
verbatim, and every further argument is one of the two fixed placeholder
lists (`junk.parquet`, or `treeme`/`junk.root`), independent of the user's
input. -/
theorem rewrite_preserves_first_two_args (b : Backend) (f : String) (s c : Expr)
    (hl : f ∈ execute_locally)
    (hs : "parquet" ∈ b.formats ∨ "root" ∈ b.formats) :
    ∃ k extra, rewrite_source b ⟨f, [s, c]⟩ = .ok ⟨k, s :: c :: extra⟩
      ∧ (extra = [.str "junk.parquet"]
          ∨ extra = [.str "treeme", .str "junk.root"]) := by
  rw [rewrite_source_local_two_args b f s c hl]
  by_cases hp : "parquet" ∈ b.formats
  · exact ⟨"ResultParquet", [.str "junk.parquet"], by simp [hp], Or.inl rfl⟩
  · have hr : "root" ∈ b.formats := hs.resolve_left hp
    exact ⟨"ResultTTree", [.str "treeme", .str "junk.root"],
      by simp [hp, hr], Or.inr rfl⟩

/-- C3 witness: a parquet-only backend rewriting a two-argument
`ResultPandasDF` query. -/
theorem rewrite_preserves_first_two_args_witness :
    ∃ k extra,
      rewrite_source ⟨["parquet"], "bk"⟩ ⟨"ResultPandasDF", [.name "a", .name "b"]⟩
          = .ok ⟨k, .name "a" :: .name "b" :: extra⟩
      ∧ (extra = [.str "junk.parquet"]
          ∨ extra = [.str "treeme", .str "junk.root"]) :=
  rewrite_preserves_first_two_args ⟨["parquet"], "bk"⟩ "ResultPandasDF"
    (.name "a") (.name "b") (by simp [execute_locally]) (Or.inl (by simp))

/-- C4: for a local-materialized kind the rewriter picks the
highest-preference backend-supported format, ranking the columnar format
(`parquet`, rewritten to `ResultParquet`) above the row-grouped tabular
one (`root`, rewritten to `ResultTTree`): if `parquet` is supported it is
chosen regardless of `root`; if only `root` is supported, `root` is
chosen. -/
theorem rewrite_format_preference (b : Backend) (f : String) (s c : Expr)
    (hl : f ∈ execute_locally) :
    ("parquet" ∈ b.formats →
      rewrite_source b ⟨f, [s, c]⟩
        = .ok ⟨"ResultParquet", [s, c, .str "junk.parquet"]⟩)
    ∧ ("parquet" ∉ b.formats → "root" ∈ b.formats →
      rewrite_source b ⟨f, [s, c]⟩
        = .ok ⟨"ResultTTree", [s, c, .str "treeme", .str "junk.root"]⟩) := by
  rw [rewrite_source_local_two_args b f s c hl]
  constructor
  · intro hp; simp [hp]
  · intro hp hr; simp [hp, hr]

/-- C4 witness: a backend supporting both formats rewrites
`ResultAwkwardArray` to the columnar `ResultParquet` call. -/
theorem rewrite_format_preference_witness :
    rewrite_source ⟨["root", "parquet"], "bk"⟩ ⟨"ResultAwkwardArray", [.name "a", .name "b"]⟩
      = .ok ⟨"ResultParquet", [.name "a", .name "b", .str "junk.parquet"]⟩ :=
  (rewrite_format_preference ⟨["root", "parquet"], "bk"⟩ "ResultAwkwardArray"
    (.name "a") (.name "b") (by simp [execute_locally])).1 (by simp)

/-- C5: the capability check raises a `FuncADLServerException` carrying the
requested kind and the backend description exactly when a remote-native
kind's required format is unsupported (`ResultTTree` requires `root`,
`ResultParquet` requires `parquet`); every other terminal-node name —
including the local-materialized kinds — passes silently. -/
theorem check_data_format_request_spec (b : Backend) (f : String) :
    (check_data_format_request b f
        = .error (.funcADLServerException (f ++ " is not supported by " ++ b.descr))
      ↔ ((f = "ResultTTree" ∧ "root" ∉ b.formats)
          ∨ (f = "ResultParquet" ∧ "parquet" ∉ b.formats)))
    ∧ (f ≠ "ResultTTree" → f ≠ "ResultParquet" →
        check_data_format_request b f = .ok ()) := by
  constructor
  · by_cases h1 : f = "ResultTTree" <;> by_cases h2 : f = "ResultParquet" <;>
      by_cases hr : "root" ∈ b.formats <;> by_cases hp : "parquet" ∈ b.formats <;>
        simp [check_data_format_request, first_supported_datatype, h1, h2, hr, hp]
  · intro h1 h2
    simp [check_data_format_request, h1, h2]

/-- C5 witness: an unknown terminal name passes the capability check, and
a rootless backend rejects `ResultTTree` with the exact error. -/
theorem check_data_format_request_spec_witness :
    check_data_format_request ⟨[], "bk"⟩ "Select" = .ok ()
    ∧ check_data_format_request ⟨["parquet"], "bk"⟩ "ResultTTree"
        = .error (.funcADLServerException "ResultTTree is not supported by bk") :=
  ⟨(check_data_format_request_spec ⟨[], "bk"⟩ "Select").2 (by decide) (by decide),
   (check_data_format_request_spec ⟨["parquet"], "bk"⟩ "ResultTTree").1.mpr
     (Or.inl ⟨rfl, by simp⟩)⟩

/-- C6, counterexample: a one-argument `ResultPandasDF` query against a
backend supporting neither format fails with the `AssertionError` from the
format assertion, not with the arity `FuncADLServerException`: the format
lookup on line 110 runs before the arity check on line 114. -/
theorem rewrite_bad_arity_no_format_is_not_arity_error :
    rewrite_source ⟨[], "sx"⟩ ⟨"ResultPandasDF", [.name "stream"]⟩
        = .error (.assertionError "Unsupported ServiceX returned format")
    ∧ is_funcadl_error (rewrite_source ⟨[], "sx"⟩ ⟨"ResultPandasDF", [.name "stream"]⟩)
        = false :=
  ⟨rfl, rfl⟩

/-- C6, amended: provided the backend supports at least one remote-native
format, a local-materialized terminal node that does not carry exactly two
arguments makes the rewriter fail with the wrong-number-of-arguments
`FuncADLServerException`; the argument list is never truncated or padded.
(With no supported format, the format assertion fires first instead.) -/
theorem rewrite_arity_error (b : Backend) (f : String) (args : List Expr)
    (hl : f ∈ execute_locally)
    (hs : "parquet" ∈ b.formats ∨ "root" ∈ b.formats)
    (hn : args.length ≠ 2) :
    rewrite_source b ⟨f, args⟩
      = .error (.funcADLServerException
          ("Do not understand how to call " ++ f ++ " - wrong number of arguments")) := by
  have hfmt := fsd_parquet_root b
  by_cases hp : "parquet" ∈ b.formats
  · rcases args with _ | ⟨x, _ | ⟨y, _ | ⟨z, t⟩⟩⟩
    · simp [rewrite_source, hl, hfmt, hp, lookupDict, format_map]
    · simp [rewrite_source, hl, hfmt, hp, lookupDict, format_map]
    · exact absurd rfl hn
    · simp [rewrite_source, hl, hfmt, hp, lookupDict, format_map]
  · have hr : "root" ∈ b.formats := hs.resolve_left hp
    rcases args with _ | ⟨x, _ | ⟨y, _ | ⟨z, t⟩⟩⟩
    · simp [rewrite_source, hl, hfmt, hp, hr, lookupDict, format_map]
    · simp [rewrite_source, hl, hfmt, hp, hr, lookupDict, format_map]
    · exact absurd rfl hn
    · simp [rewrite_source, hl, hfmt, hp, hr, lookupDict, format_map]

/-- C6 witness: a three-argument `ResultAwkwardArray` query on a root-only
backend raises the arity error. -/
theorem rewrite_arity_error_witness :
    rewrite_source ⟨["root"], "bk"⟩
        ⟨"ResultAwkwardArray", [.name "a", .name "b", .name "c"]⟩
      = .error (.funcADLServerException
          ("Do not understand how to call ResultAwkwardArray"
            ++ " - wrong number of arguments")) :=
  rewrite_arity_error ⟨["root"], "bk"⟩ "ResultAwkwardArray"
    [.name "a", .name "b", .name "c"]
    (by simp [execute_locally]) (Or.inr (by simp)) (by simp)

/-- C7: in dry-run mode (`return_qastle = true`) the remote operations are
never invoked — the outcome does not depend on the operation table or the
title, and is never remote data — and any successful result is exactly the
wire text obtained by serializing the possibly-rewritten expression. -/
theorem dry_run_returns_serialized_rewrite {Data : Type} (serialize : CallExpr → String)
    (b : Backend) (run run2 : String → String → Option String → Data)
    (a : CallExpr) (title title2 : Option String) :
    (∀ d : Data, execute_result_async serialize b run true a title ≠ .ok (.remoteData d))
    ∧ execute_result_async serialize b run true a title
        = execute_result_async serialize b run2 true a title2
    ∧ (∀ r, execute_result_async serialize b run true a title = .ok r →
        ∃ a2, rewrite_source b a = .ok a2 ∧ r = .wireText (serialize a2)) := by
  rw [execute_dry_run_eq serialize b run a title,
    execute_dry_run_eq serialize b run2 a title2]
  refine ⟨?_, rfl, ?_⟩ <;>
    cases hc : check_data_format_request b a.funcId <;>
      cases hq : rewrite_source b a <;>
        simp [Except.map, Except.bind]

/-- C7 witness: a dry run of an unknown-kind query returns its wire text,
via the third conjunct at a concrete backend and serializer. -/
theorem dry_run_returns_serialized_rewrite_witness :
    ∃ a2, rewrite_source ⟨["parquet"], "bk"⟩ ⟨"Select", [.name "a"]⟩ = .ok a2
      ∧ (ExecResult.wireText "Select" : ExecResult Nat)
          = .wireText (CallExpr.funcId a2) :=
  (@dry_run_returns_serialized_rewrite Nat CallExpr.funcId
    ⟨["parquet"], "bk"⟩ (fun _ _ _ => 0) (fun _ _ _ => 1)
    ⟨"Select", [.name "a"]⟩ none (some "t")).2.2
    (.wireText "Select") rfl

/-- C8: in non-dry-run mode, once the capability check and the rewrite have
succeeded, the invoker looks the ORIGINAL terminal kind (not the rewritten
one) up in the dispatch table; if it is absent it fails with the internal
dispatch `FuncADLServerException`, and otherwise it hands exactly the
serialized rewritten query and the optional title to that one operation and
returns the operation's result unmodified. -/
theorem invoker_dispatches_on_original_kind {Data : Type} (serialize : CallExpr → String)
    (b : Backend) (run : String → String → Option String → Data)
    (a a2 : CallExpr) (title : Option String)
    (hc : check_data_format_request b a.funcId = .ok ())
    (hq : rewrite_source b a = .ok a2) :
    (lookupDict ds_map a.funcId = none →
      execute_result_async serialize b run false a title
        = .error (.funcADLServerException
            ("Internal error - asked for " ++ a.funcId
              ++ " - but this dataset does not support it.")))
    ∧ (∀ nm, lookupDict ds_map a.funcId = some nm →
        execute_result_async serialize b run false a title
          = .ok (.remoteData (run nm (serialize a2) title))) := by
  constructor
  · intro hm
    simp [execute_result_async, generate_qastle, hc, hq, hm, Except.map,
      Except.bind, Bind.bind, Pure.pure, Except.pure]
  · intro nm hm
    simp [execute_result_async, generate_qastle, hc, hq, hm, Except.map,
      Except.bind, Bind.bind, Pure.pure, Except.pure]

/-- C8 witness: a `ResultPandasDF` query on a parquet backend is rewritten
to `ResultParquet` but dispatched via the original `ResultPandasDF` key,
and the operation's result comes back unmodified. -/
theorem invoker_dispatches_on_original_kind_witness :
    execute_result_async CallExpr.funcId ⟨["parquet"], "bk"⟩
        (fun nm q _ => nm ++ "|" ++ q) false
        ⟨"ResultPandasDF", [.name "a", .name "b"]⟩ (some "t")
      = .ok (.remoteData "get_data_pandas_df_async|ResultParquet") :=
  (invoker_dispatches_on_original_kind CallExpr.funcId ⟨["parquet"], "bk"⟩
    (fun nm q _ => nm ++ "|" ++ q)
    ⟨"ResultPandasDF", [.name "a", .name "b"]⟩
    ⟨"ResultParquet", [.name "a", .name "b", .str "junk.parquet"]⟩ (some "t")
    rfl rfl).2 "get_data_pandas_df_async" rfl

/-- C9: rewriting a two-argument local-materialized query builds a new root
node — its function name differs from the original's, so it is a different
node — while the original's first two argument subtrees are reused verbatim
inside it; the embedding is pure, so the original expression and all of its
subtrees are unchanged by the rewrite. -/
theorem rewrite_builds_new_root (b : Backend) (f : String) (s c : Expr)
    (hl : f ∈ execute_locally)
    (hs : "parquet" ∈ b.formats ∨ "root" ∈ b.formats) :
    ∃ a2 : CallExpr, rewrite_source b ⟨f, [s, c]⟩ = .ok a2
      ∧ a2.funcId ≠ f
      ∧ a2 ≠ ⟨f, [s, c]⟩
      ∧ a2.args.take 2 = [s, c] := by
  have hf : f = "ResultPandasDF" ∨ f = "ResultAwkwardArray" := by
    simpa [execute_locally] using hl
  rw [rewrite_source_local_two_args b f s c hl]
  by_cases hp : "parquet" ∈ b.formats
  · have hne : ("ResultParquet" : String) ≠ f := by
      rcases hf with h | h <;> simp [h]
    exact ⟨⟨"ResultParquet", [s, c, .str "junk.parquet"]⟩, by simp [hp], hne,
      fun h => hne (congrArg CallExpr.funcId h), rfl⟩
  · have hr : "root" ∈ b.formats := hs.resolve_left hp
    have hne : ("ResultTTree" : String) ≠ f := by
      rcases hf with h | h <;> simp [h]
    exact ⟨⟨"ResultTTree", [s, c, .str "treeme", .str "junk.root"]⟩,
      by simp [hp, hr], hne, fun h => hne (congrArg CallExpr.funcId h), rfl⟩

/-- C9 witness: the rewrite of a `ResultAwkwardArray` query on a root-only
backend is a fresh root sharing the original's first two arguments. -/
theorem rewrite_builds_new_root_witness :
    ∃ a2 : CallExpr,
      rewrite_source ⟨["root"], "bk"⟩ ⟨"ResultAwkwardArray", [.name "a", .str "b"]⟩
          = .ok a2
      ∧ a2.funcId ≠ "ResultAwkwardArray"
      ∧ a2 ≠ ⟨"ResultAwkwardArray", [.name "a", .str "b"]⟩
      ∧ a2.args.take 2 = [.name "a", .str "b"] :=
  rewrite_builds_new_root ⟨["root"], "bk"⟩ "ResultAwkwardArray"
    (.name "a") (.str "b") (by simp [execute_locally]) (Or.inr (by simp))

/-- C10: a terminal-node name outside the four known ResultKinds passes the
capability check silently and is left unchanged by the rewriter, so a
dry-run request succeeds and returns the unknown expression's wire text,
while a non-dry-run request fails at the dispatch-table lookup with the
defensive internal `FuncADLServerException`. -/
theorem unknown_kind_passes_until_dispatch {Data : Type} (serialize : CallExpr → String)
    (b : Backend) (run : String → String → Option String → Data)
    (a : CallExpr) (title : Option String)
    (h1 : a.funcId ≠ "ResultTTree") (h2 : a.funcId ≠ "ResultParquet")
    (h3 : a.funcId ≠ "ResultPandasDF") (h4 : a.funcId ≠ "ResultAwkwardArray") :
    check_data_format_request b a.funcId = .ok ()
    ∧ rewrite_source b a = .ok a
    ∧ execute_result_async serialize b run true a title = .ok (.wireText (serialize a))
    ∧ execute_result_async serialize b run false a title
        = .error (.funcADLServerException
            ("Internal error - asked for " ++ a.funcId
              ++ " - but this dataset does not support it.")) := by
  have hc : check_data_format_request b a.funcId = .ok () := by
    simp [check_data_format_request, h1, h2]
  have hq : rewrite_source b a = .ok a :=
    rewrite_source_nonlocal b a (by simp [execute_locally, h3, h4])
  have hm : lookupDict ds_map a.funcId = none := by
    simp [ds_map, lookupDict, h1, h2, h3, h4]
  refine ⟨hc, hq, ?_, ?_⟩
  · simp [execute_result_async, generate_qastle, hc, hq, Except.map,
      Except.bind, Bind.bind, Pure.pure, Except.pure]
  · simp [execute_result_async, generate_qastle, hc, hq, hm, Except.map,
      Except.bind, Bind.bind, Pure.pure, Except.pure]

/-- C10 witness: the theorem applied to a `Select`-rooted query on a
formatless backend. -/
theorem unknown_kind_passes_until_dispatch_witness :
    check_data_format_request ⟨[], "bk"⟩ "Select" = .ok ()
    ∧ rewrite_source ⟨[], "bk"⟩ ⟨"Select", [.name "a"]⟩
        = .ok ⟨"Select", [.name "a"]⟩
    ∧ execute_result_async CallExpr.funcId ⟨[], "bk"⟩
        (fun _ _ _ => (0 : Nat)) true ⟨"Select", [.name "a"]⟩ none
        = .ok (.wireText "Select")
    ∧ execute_result_async CallExpr.funcId ⟨[], "bk"⟩
        (fun _ _ _ => (0 : Nat)) false ⟨"Select", [.name "a"]⟩ none
        = .error (.funcADLServerException
            ("Internal error - asked for Select"
              ++ " - but this dataset does not support it.")) :=
  unknown_kind_passes_until_dispatch CallExpr.funcId ⟨[], "bk"⟩
    (fun _ _ _ => (0 : Nat)) ⟨"Select", [.name "a"]⟩ none
    (by decide) (by decide) (by decide) (by decide)
